import Mathlib

/-!
# Kart Mania multiplayer network tools — verification

Shallow embedding of the UDP packet layer of the Kart Mania toolkit
(`tools/network/simulate_ds_player.py`, `tools/network/test_multiplayer.py`).
Bytes are modelled as `Nat` (always `< 256` for produced bytes), Python ints
as `Nat`/`Int`, Python floats as `ℚ` (all float values exercised here are
dyadic rationals on which binary floating point is exact), and Python
exceptions as `Except` results carrying the mutated state.
-/

namespace KartMania

/-- Python exceptions relevant to the packet code. -/
inductive PyErr where
  | structError
  | osError
  | valueError
  deriving DecidableEq, Repr

/-- Protocol constant `PROTOCOL_VERSION = 1`. -/
def PROTOCOL_VERSION : Nat := 1

/-- Values of the `MessageType` enum. -/
def MSG_LOBBY_JOIN : Nat := 0

def MSG_LOBBY_UPDATE : Nat := 1

def MSG_READY : Nat := 2

def MSG_CAR_UPDATE : Nat := 3

def MSG_ITEM_PLACED : Nat := 4

def MSG_ITEM_BOX_PICKUP : Nat := 5

def MSG_DISCONNECT : Nat := 6

/-- Values of the `Item` enum. -/
def ITEM_NONE : Int := 0

def ITEM_BANANA : Int := 1

def ITEM_GREEN_SHELL : Int := 2

/-- Models `struct.pack` of one `B` (unsigned byte) field: raises
`struct.error` outside `0..255`. -/
def packB (n : Nat) : Except PyErr (List Nat) :=
  if n < 256 then .ok [n] else .error .structError

/-- Models `struct.pack` of one `<I` (little-endian `uint32`) field: raises
`struct.error` outside `0..2^32-1`. -/
def packI (n : Nat) : Except PyErr (List Nat) :=
  if n < 4294967296 then
    .ok [n % 256, n / 256 % 256, n / 65536 % 256, n / 16777216 % 256]
  else .error .structError

/-- Models `struct.pack` of one `<i` (little-endian two's-complement `int32`)
field: raises `struct.error` outside `[-2^31, 2^31)`. -/
def packi (z : Int) : Except PyErr (List Nat) :=
  if -2147483648 ≤ z ∧ z < 2147483648 then
    .ok [(z % 4294967296).toNat % 256, (z % 4294967296).toNat / 256 % 256,
         (z % 4294967296).toNat / 65536 % 256, (z % 4294967296).toNat / 16777216 % 256]
  else .error .structError

/-- Models `struct.pack('<BBBBI', version, msgType, playerId, pad, seq)`:
the 8-byte packet header. -/
def packHeader (version msgType playerId pad seq : Nat) : Except PyErr (List Nat) := do
  let b0 ← packB version
  let b1 ← packB msgType
  let b2 ← packB playerId
  let b3 ← packB pad
  let w ← packI seq
  return b0 ++ b1 ++ b2 ++ b3 ++ w

/-- Models `struct.pack('<B23x', b)`: lobby/ready payload, 1 byte + 23 zero
pad. -/
def packLobbyPayload (isReady : Nat) : Except PyErr (List Nat) := do
  let b ← packB isReady
  return b ++ List.replicate 23 0

/-- Models `struct.pack('<iiiiii', px, py, sp, angle, lap, item)`: car-update
payload. -/
def packCarPayload (px py sp angle lap item : Int) : Except PyErr (List Nat) := do
  let a ← packi px
  let b ← packi py
  let c ← packi sp
  let d ← packi angle
  let e ← packi lap
  let f ← packi item
  return a ++ b ++ c ++ d ++ e ++ f

/-- Models `struct.pack('<iiiii4x', itemType, px, py, angle, sp)`:
item-placed payload, five `int32` fields + 4 zero pad. -/
def packItemPlacedPayload (itemType px py angle sp : Int) : Except PyErr (List Nat) := do
  let a ← packi itemType
  let b ← packi px
  let c ← packi py
  let d ← packi angle
  let e ← packi sp
  return a ++ b ++ c ++ d ++ e ++ List.replicate 4 0

/-- Models `struct.pack('<i20x', boxIndex)`: item-box-pickup payload, one
`int32` + 20 zero pad. -/
def packItemBoxPayload (boxIndex : Int) : Except PyErr (List Nat) := do
  let a ← packi boxIndex
  return a ++ List.replicate 20 0

/-- Disconnect payload, `b'\x00' * 24`. -/
def disconnectPayload : List Nat := List.replicate 24 0

/-- Python `int()` applied to a real value: truncation toward zero. -/
def pyInt (v : ℚ) : Int := if 0 ≤ v then ⌊v⌋ else ⌈v⌉

/-- The source's Q16.8 fixed-point encoding of a real value, `int(v * 256)`. -/
def toQ16_8 (v : ℚ) : Int := pyInt (v * 256)

/-- Modelled from the spec: the DS-side decoding of a Q16.8 field is not part
of the toolkit sources; the spec states `real = fixed / 256.0`. -/
def fromQ16_8 (z : Int) : ℚ := (z : ℚ) / 256

/-- State of one `SimulatedDSPlayer` instance (the socket and timing fields
are external effects, not data; `last_heartbeat` carries no
protocol-relevant information and is omitted). -/
structure SimulatedDSPlayer where
  player_id : Nat
  sequence_number : Nat
  is_ready : Bool
  in_race : Bool
  running : Bool
  pos_x : ℚ
  pos_y : ℚ
  speed : ℚ
  angle : Int
  lap : Int
  item : Int
  packets_sent : Nat
  packets_received : Nat
  deriving DecidableEq, Repr

/-- Method `SimulatedDSPlayer.build_packet`: packs the header with the current
sequence number, then increments the counter (`self.sequence_number += 1`
runs only if `struct.pack` did not raise), and appends the payload. -/
def build_packet (st : SimulatedDSPlayer) (msg_type : Nat) (payload : List Nat) :
    Except PyErr (List Nat × SimulatedDSPlayer) := do
  let header ← packHeader PROTOCOL_VERSION msg_type st.player_id 0 st.sequence_number
  return (header ++ payload, { st with sequence_number := st.sequence_number + 1 })

/-- The messages a `SimulatedDSPlayer` can build; payload fields come from
the session state (the item type of `send_item_placed` is its argument). -/
inductive SimMsg where
  | lobbyJoin
  | lobbyUpdate
  | ready
  | carUpdate
  | itemPlaced (item_type : Int)
  | disconnect
  deriving DecidableEq, Repr

/-- Payload construction of each `send_*` method of `SimulatedDSPlayer`. -/
def simPayload (st : SimulatedDSPlayer) : SimMsg → Except PyErr (List Nat)
  | .lobbyJoin => packLobbyPayload (if st.is_ready then 1 else 0)
  | .lobbyUpdate => packLobbyPayload (if st.is_ready then 1 else 0)
  | .ready => packLobbyPayload (if st.is_ready then 1 else 0)
  | .carUpdate =>
      packCarPayload (toQ16_8 st.pos_x) (toQ16_8 st.pos_y) (toQ16_8 st.speed)
        st.angle st.lap st.item
  | .itemPlaced item_type =>
      packItemPlacedPayload item_type (toQ16_8 st.pos_x) (toQ16_8 st.pos_y)
        st.angle (toQ16_8 10)
  | .disconnect => .ok disconnectPayload

/-- The `MessageType` code each `send_*` method passes to `build_packet`. -/
def SimMsg.code : SimMsg → Nat
  | .lobbyJoin => MSG_LOBBY_JOIN
  | .lobbyUpdate => MSG_LOBBY_UPDATE
  | .ready => MSG_READY
  | .carUpdate => MSG_CAR_UPDATE
  | .itemPlaced _ => MSG_ITEM_PLACED
  | .disconnect => MSG_DISCONNECT

/-- Payload construction composed with `build_packet`, as each `send_*`
method performs before touching the socket.  If `struct.pack` raises, the
state is left unchanged (the counter increment happens after the header
pack). -/
def simBuild (st : SimulatedDSPlayer) (m : SimMsg) :
    Except PyErr (List Nat × SimulatedDSPlayer) := do
  let payload ← simPayload st m
  build_packet st m.code payload

/-- Method `send_lobby_join`: build, `sendto` (unprotected — an `OSError`
propagates), then `packets_sent += 1`.  `sendOk` is whether the OS-level
send succeeds.  Errors carry the state as mutated so far. -/
def send_lobby_join (st : SimulatedDSPlayer) (sendOk : Bool) :
    Except (PyErr × SimulatedDSPlayer) (List Nat × SimulatedDSPlayer) :=
  match simBuild st .lobbyJoin with
  | .error e => .error (e, st)
  | .ok (pkt, st1) =>
      if sendOk then .ok (pkt, { st1 with packets_sent := st1.packets_sent + 1 })
      else .error (.osError, st1)

/-- Method `send_lobby_update` (heartbeat): build, then `try: sendto;
packets_sent += 1 except OSError: pass` — an OS-level send failure is
silently swallowed (the counter was already consumed by the build). -/
def send_lobby_update (st : SimulatedDSPlayer) (sendOk : Bool) :
    Except (PyErr × SimulatedDSPlayer) (List Nat × SimulatedDSPlayer) :=
  match simBuild st .lobbyUpdate with
  | .error e => .error (e, st)
  | .ok (pkt, st1) =>
      if sendOk then .ok (pkt, { st1 with packets_sent := st1.packets_sent + 1 })
      else .ok (pkt, st1)

/-- Method `send_ready`: build, `sendto` (unprotected), `packets_sent += 1`. -/
def send_ready (st : SimulatedDSPlayer) (sendOk : Bool) :
    Except (PyErr × SimulatedDSPlayer) (List Nat × SimulatedDSPlayer) :=
  match simBuild st .ready with
  | .error e => .error (e, st)
  | .ok (pkt, st1) =>
      if sendOk then .ok (pkt, { st1 with packets_sent := st1.packets_sent + 1 })
      else .error (.osError, st1)

/-- Method `send_car_update`: Q16.8 conversions, build, `sendto`
(unprotected),
`packets_sent += 1`. -/
def send_car_update (st : SimulatedDSPlayer) (sendOk : Bool) :
    Except (PyErr × SimulatedDSPlayer) (List Nat × SimulatedDSPlayer) :=
  match simBuild st .carUpdate with
  | .error e => .error (e, st)
  | .ok (pkt, st1) =>
      if sendOk then .ok (pkt, { st1 with packets_sent := st1.packets_sent + 1 })
      else .error (.osError, st1)

/-- Method `send_item_placed`: build, `sendto` (unprotected),
`packets_sent += 1`,
then `print(Item(item_type).name)` — which raises `ValueError` when
`item_type` is not a defined `Item` value (0..4), after the send. -/
def send_item_placed (st : SimulatedDSPlayer) (item_type : Int) (sendOk : Bool) :
    Except (PyErr × SimulatedDSPlayer) (List Nat × SimulatedDSPlayer) :=
  match simBuild st (.itemPlaced item_type) with
  | .error e => .error (e, st)
  | .ok (pkt, st1) =>
      if sendOk then
        let st2 := { st1 with packets_sent := st1.packets_sent + 1 }
        if 0 ≤ item_type ∧ item_type ≤ 4 then .ok (pkt, st2)
        else .error (.valueError, st2)
      else .error (.osError, st1)

/-- Method `send_disconnect`: build, then `try: sendto; packets_sent += 1;
print
except OSError: print` — a failed final send is reported but swallowed. -/
def send_disconnect (st : SimulatedDSPlayer) (sendOk : Bool) :
    Except (PyErr × SimulatedDSPlayer) (List Nat × SimulatedDSPlayer) :=
  match simBuild st .disconnect with
  | .error e => .error (e, st)
  | .ok (pkt, st1) =>
      if sendOk then .ok (pkt, { st1 with packets_sent := st1.packets_sent + 1 })
      else .ok (pkt, st1)

/-- Method `update_car_physics`: advances `angle` by 5 mod 512, sets
`speed = 5.0`,
and moves the position by `cos`/`sin` of the angle times the speed, clamped
to `[50, 950]`.  The transcendental displacement is abstracted as the event
inputs `dx`, `dy`; everything else is the source's arithmetic. -/
def update_car_physics (st : SimulatedDSPlayer) (dx dy : ℚ) : SimulatedDSPlayer :=
  { st with
    angle := (st.angle + 5) % 512
    speed := 5
    pos_x := max 50 (min 950 (st.pos_x + dx))
    pos_y := max 50 (min 950 (st.pos_y + dy)) }

/-- Externally triggered actions of the session loops: a scheduled lobby
heartbeat, a key handled by `handle_lobby_input`, a key handled by
`handle_race_input`, a scheduled race-mode car-update tick (physics
displacement abstracted as `dx`, `dy`), and the initial lobby join.  Each
carries whether the OS-level `sendto` it may perform succeeds. -/
inductive Event where
  | heartbeatTick (sendOk : Bool)
  | lobbyKey (c : Char) (sendOk : Bool)
  | raceKey (c : Char) (sendOk : Bool)
  | carTick (dx dy : ℚ) (sendOk : Bool)
  | joinLobby (sendOk : Bool)
  deriving DecidableEq

/-- One event of the session loops: dispatches to the source's handler,
returning the new state and the packets built (at most one per event). -/
def stepEvent (st : SimulatedDSPlayer) :
    Event → Except (PyErr × SimulatedDSPlayer) (SimulatedDSPlayer × List (List Nat))
  | .heartbeatTick sendOk =>
      (send_lobby_update st sendOk).map fun (pkt, st1) => (st1, [pkt])
  | .lobbyKey c sendOk =>
      if c = ' ' ∨ c = '\n' ∨ c = '\r' then
        let st1 := { st with is_ready := !st.is_ready }
        (send_ready st1 sendOk).map fun (pkt, st2) => (st2, [pkt])
      else if c.toLower = 'r' then .ok ({ st with in_race := true }, [])
      else if c.toLower = 'q' then .ok ({ st with running := false }, [])
      else .ok (st, [])
  | .raceKey c sendOk =>
      if c.toLower = 'b' then
        (send_item_placed st ITEM_BANANA sendOk).map fun (pkt, st1) => (st1, [pkt])
      else if c.toLower = 'g' then
        (send_item_placed st ITEM_GREEN_SHELL sendOk).map fun (pkt, st1) => (st1, [pkt])
      else if c.toLower = 'l' then
        let st1 := { st with in_race := false, is_ready := false }
        (send_lobby_join st1 sendOk).map fun (pkt, st2) => (st2, [pkt])
      else if c.toLower = 'q' then .ok ({ st with running := false }, [])
      else .ok (st, [])
  | .carTick dx dy sendOk =>
      (send_car_update (update_car_physics st dx dy) sendOk).map
        fun (pkt, st1) => (st1, [pkt])
  | .joinLobby sendOk =>
      (send_lobby_join st sendOk).map fun (pkt, st1) => (st1, [pkt])

/-- Runs a sequence of events, collecting every packet built, aborting at
the first uncaught exception (as the session loop does). -/
def runEvents (st : SimulatedDSPlayer) :
    List Event → Except (PyErr × SimulatedDSPlayer) (SimulatedDSPlayer × List (List Nat))
  | [] => .ok (st, [])
  | ev :: evs =>
      match stepEvent st ev with
      | .error e => .error e
      | .ok (st1, ps) =>
          match runEvents st1 evs with
          | .error e => .error e
          | .ok (st2, qs) => .ok (st2, ps ++ qs)

/-- Models `struct.unpack('<BBBBI', buf)`: requires exactly 8 bytes; yields
`(version, msg_type, player_id, padding, seq_num)` with the `uint32` read
little-endian. -/
def unpackHeader8 (buf : List Nat) : Option (Nat × Nat × Nat × Nat × Nat) :=
  if buf.length = 8 then
    some (buf.getD 0 0, buf.getD 1 0, buf.getD 2 0, buf.getD 3 0,
      buf.getD 4 0 + 256 * buf.getD 5 0 + 65536 * buf.getD 6 0 +
        16777216 * buf.getD 7 0)
  else none

/-- Models `MessageType(v).name`: raises `ValueError` when `v` is not a
defined enum value (0..6). -/
def messageTypeName (v : Nat) : Option Nat :=
  if v ≤ 6 then some v else none

/-- Body of `SimulatedDSPlayer.receive_packets` after `recvfrom` returned a
datagram, without the enclosing `try`.  The result is the new state and, when
a line is printed, the `(msg_type, player_id)` pair shown. -/
def receiveBody (st : SimulatedDSPlayer) (data : List Nat) :
    Except (PyErr × SimulatedDSPlayer) (SimulatedDSPlayer × Option (Nat × Nat)) :=
  if 8 ≤ data.length then
    match unpackHeader8 (data.take 8) with
    | none => .error (.structError, st)
    | some (_, msg_type, player_id, _, _) =>
        if player_id = st.player_id then .ok (st, none)
        else
          let st1 := { st with packets_received := st.packets_received + 1 }
          if msg_type < 7 then
            match messageTypeName msg_type with
            | none => .error (.valueError, st1)
            | some _ =>
                if msg_type = MSG_LOBBY_JOIN ∨ msg_type = MSG_READY ∨
                    msg_type = MSG_DISCONNECT then
                  .ok (st1, some (msg_type, player_id))
                else .ok (st1, none)
          else .ok (st1, none)
  else .ok (st, none)

/-- Method `SimulatedDSPlayer.receive_packets`: the body wrapped in the
`try`/`except` that swallows every exception. -/
def receive_packets (st : SimulatedDSPlayer) (data : List Nat) :
    SimulatedDSPlayer × Option (Nat × Nat) :=
  match receiveBody st data with
  | .ok r => r
  | .error (_, st1) => (st1, none)

/-- State of a `NetworkPacketBuilder` from `test_multiplayer.py`. -/
structure NetworkPacketBuilder where
  player_id : Nat
  sequence_number : Nat
  deriving DecidableEq, Repr

namespace NetworkPacketBuilder

/-- The common prologue of every `build_*` method: pack the header with the
current sequence number, then `self.sequence_number += 1`. -/
def header (b : NetworkPacketBuilder) (msgType : Nat) :
    Except (PyErr × NetworkPacketBuilder) (List Nat × NetworkPacketBuilder) :=
  match packHeader PROTOCOL_VERSION msgType b.player_id 0 b.sequence_number with
  | .error e => .error (e, b)
  | .ok h => .ok (h, { b with sequence_number := b.sequence_number + 1 })

/-- Method `build_lobby_join`: header, then `'<B23x'` of `isReady = 0`. -/
def build_lobby_join (b : NetworkPacketBuilder) :
    Except (PyErr × NetworkPacketBuilder) (List Nat × NetworkPacketBuilder) := do
  let (h, b1) ← b.header MSG_LOBBY_JOIN
  match packLobbyPayload 0 with
  | .error e => .error (e, b1)
  | .ok p => .ok (h ++ p, b1)

/-- Method `build_lobby_update`: header, then `'<B23x'` of `int(is_ready)`. -/
def build_lobby_update (b : NetworkPacketBuilder) (is_ready : Bool) :
    Except (PyErr × NetworkPacketBuilder) (List Nat × NetworkPacketBuilder) := do
  let (h, b1) ← b.header MSG_LOBBY_UPDATE
  match packLobbyPayload (if is_ready then 1 else 0) with
  | .error e => .error (e, b1)
  | .ok p => .ok (h ++ p, b1)

/-- Method `build_ready`: header, then `'<B23x'` of `int(is_ready)`. -/
def build_ready (b : NetworkPacketBuilder) (is_ready : Bool) :
    Except (PyErr × NetworkPacketBuilder) (List Nat × NetworkPacketBuilder) := do
  let (h, b1) ← b.header MSG_READY
  match packLobbyPayload (if is_ready then 1 else 0) with
  | .error e => .error (e, b1)
  | .ok p => .ok (h ++ p, b1)

/-- Method `build_car_update`: header, Q16.8 conversions, then `'<iiiiii'`. -/
def build_car_update (b : NetworkPacketBuilder) (pos_x pos_y speed : ℚ)
    (angle512 lap item : Int) :
    Except (PyErr × NetworkPacketBuilder) (List Nat × NetworkPacketBuilder) := do
  let (h, b1) ← b.header MSG_CAR_UPDATE
  match packCarPayload (toQ16_8 pos_x) (toQ16_8 pos_y) (toQ16_8 speed)
      angle512 lap item with
  | .error e => .error (e, b1)
  | .ok p => .ok (h ++ p, b1)

/-- Method `build_item_placed`: header, Q16.8 conversions, then
`'<iiiii4x'`. -/
def build_item_placed (b : NetworkPacketBuilder) (item_type : Int)
    (pos_x pos_y : ℚ) (angle512 : Int) (speed : ℚ) :
    Except (PyErr × NetworkPacketBuilder) (List Nat × NetworkPacketBuilder) := do
  let (h, b1) ← b.header MSG_ITEM_PLACED
  match packItemPlacedPayload item_type (toQ16_8 pos_x) (toQ16_8 pos_y)
      angle512 (toQ16_8 speed) with
  | .error e => .error (e, b1)
  | .ok p => .ok (h ++ p, b1)

/-- Method `build_item_box_pickup`: header, then `'<i20x'`. -/
def build_item_box_pickup (b : NetworkPacketBuilder) (box_index : Int) :
    Except (PyErr × NetworkPacketBuilder) (List Nat × NetworkPacketBuilder) := do
  let (h, b1) ← b.header MSG_ITEM_BOX_PICKUP
  match packItemBoxPayload box_index with
  | .error e => .error (e, b1)
  | .ok p => .ok (h ++ p, b1)

/-- Method `build_disconnect`: header, then 24 zero bytes. -/
def build_disconnect (b : NetworkPacketBuilder) :
    Except (PyErr × NetworkPacketBuilder) (List Nat × NetworkPacketBuilder) := do
  let (h, b1) ← b.header MSG_DISCONNECT
  .ok (h ++ disconnectPayload, b1)

end NetworkPacketBuilder

/-- The argument space of the seven `NetworkPacketBuilder.build_*` methods. -/
inductive NPBMsg where
  | lobbyJoin
  | lobbyUpdate (is_ready : Bool)
  | ready (is_ready : Bool)
  | carUpdate (pos_x pos_y speed : ℚ) (angle512 lap item : Int)
  | itemPlaced (item_type : Int) (pos_x pos_y : ℚ) (angle512 : Int) (speed : ℚ)
  | itemBoxPickup (box_index : Int)
  | disconnect
  deriving DecidableEq

/-- Dispatcher over the seven `build_*` methods. -/
def npbBuild (b : NetworkPacketBuilder) :
    NPBMsg → Except (PyErr × NetworkPacketBuilder) (List Nat × NetworkPacketBuilder)
  | .lobbyJoin => b.build_lobby_join
  | .lobbyUpdate r => b.build_lobby_update r
  | .ready r => b.build_ready r
  | .carUpdate px py sp a l i => b.build_car_update px py sp a l i
  | .itemPlaced t px py a sp => b.build_item_placed t px py a sp
  | .itemBoxPickup i => b.build_item_box_pickup i
  | .disconnect => b.build_disconnect

/-- The `sequenceNumber` field of a packet as it appears on the wire:
the little-endian `uint32` at byte offsets 4..7. -/
def seqOf (pkt : List Nat) : Nat :=
  pkt.getD 4 0 + 256 * pkt.getD 5 0 + 65536 * pkt.getD 6 0 +
    16777216 * pkt.getD 7 0

/-- A little-endian two's-complement `int32` read from four bytes. -/
def decodeInt32LE (b0 b1 b2 b3 : Nat) : Int :=
  let u := b0 + 256 * b1 + 65536 * b2 + 16777216 * b3
  if u < 2147483648 then (u : Int) else (u : Int) - 4294967296

/-- Modelled from the spec: the DS-side decoding of a `CarUpdatePayload` is
not part of the toolkit sources; per the wire-format section it reads six
little-endian `int32` fields and interprets the first three as Q16.8
(`real = fixed / 256.0`). -/
def decodeCarPayload (bs : List Nat) : Option (ℚ × ℚ × ℚ × Int × Int × Int) :=
  if bs.length = 24 then
    some (fromQ16_8 (decodeInt32LE (bs.getD 0 0) (bs.getD 1 0) (bs.getD 2 0) (bs.getD 3 0)),
      fromQ16_8 (decodeInt32LE (bs.getD 4 0) (bs.getD 5 0) (bs.getD 6 0) (bs.getD 7 0)),
      fromQ16_8 (decodeInt32LE (bs.getD 8 0) (bs.getD 9 0) (bs.getD 10 0) (bs.getD 11 0)),
      decodeInt32LE (bs.getD 12 0) (bs.getD 13 0) (bs.getD 14 0) (bs.getD 15 0),
      decodeInt32LE (bs.getD 16 0) (bs.getD 17 0) (bs.getD 18 0) (bs.getD 19 0),
      decodeInt32LE (bs.getD 20 0) (bs.getD 21 0) (bs.getD 22 0) (bs.getD 23 0))
  else none

/-- A freshly constructed player 2 session (`player_id = 1`), at the origin
so that concrete fixed-point arithmetic stays exact. -/
def stA : SimulatedDSPlayer :=
  { player_id := 1, sequence_number := 0, is_ready := false, in_race := false,
    running := true, pos_x := 0, pos_y := 0, speed := 0, angle := 0,
    lap := 1, item := 0, packets_sent := 0, packets_received := 0 }

/-- The session of `stA` with the car state of the spec's encode scenario. -/
def stCar : SimulatedDSPlayer :=
  { stA with pos_x := 100, pos_y := 200, speed := 5, angle := 256 }

/-- The 24-byte car-update payload of the spec's encode scenario:
`struct('<iiiiii', 25600, 51200, 1280, 256, 1, 0)`. -/
def carScenarioBytes : List Nat :=
  [0, 100, 0, 0, 0, 200, 0, 0, 0, 5, 0, 0, 0, 1, 0, 0, 1, 0, 0, 0, 0, 0, 0, 0]

/-- A three-event lobby trace: a heartbeat whose OS send fails, a SELECT
toggle, and a successful heartbeat. -/
def traceB : List Event :=
  [.heartbeatTick false, .lobbyKey ' ' true, .heartbeatTick true]

end KartMania

namespace KartMania

theorem packB_eq_ok {n : Nat} {bs : List Nat} :
    packB n = .ok bs ↔ n < 256 ∧ bs = [n] := by
  unfold packB
  split <;> simp_all [eq_comm]

theorem packI_eq_ok {n : Nat} {bs : List Nat} :
    packI n = .ok bs ↔ n < 4294967296 ∧
      bs = [n % 256, n / 256 % 256, n / 65536 % 256, n / 16777216 % 256] := by
  unfold packI
  split <;> simp_all [eq_comm]

theorem packi_eq_ok {z : Int} {bs : List Nat} :
    packi z = .ok bs ↔ (-2147483648 ≤ z ∧ z < 2147483648) ∧
      bs = [(z % 4294967296).toNat % 256, (z % 4294967296).toNat / 256 % 256,
            (z % 4294967296).toNat / 65536 % 256,
            (z % 4294967296).toNat / 16777216 % 256] := by
  unfold packi
  split <;> simp_all [eq_comm]

theorem packHeader_eq_ok {v m p q s : Nat} {bs : List Nat} :
    packHeader v m p q s = .ok bs ↔
      v < 256 ∧ m < 256 ∧ p < 256 ∧ q < 256 ∧ s < 4294967296 ∧
      bs = [v, m, p, q, s % 256, s / 256 % 256, s / 65536 % 256,
            s / 16777216 % 256] := by
  unfold packHeader packB packI
  split_ifs <;> simp_all [Bind.bind, Except.bind, pure, Except.pure, eq_comm]

theorem packLobbyPayload_length {r : Nat} {bs : List Nat}
    (h : packLobbyPayload r = .ok bs) : bs.length = 24 := by
  unfold packLobbyPayload packB at h
  split_ifs at h <;>
    simp only [Bind.bind, Except.bind, pure, Except.pure, Except.ok.injEq,
      reduceCtorEq] at h
  subst h
  rfl

theorem packCarPayload_length {px py sp a l i : Int} {bs : List Nat}
    (h : packCarPayload px py sp a l i = .ok bs) : bs.length = 24 := by
  unfold packCarPayload packi at h
  split_ifs at h <;>
    simp only [Bind.bind, Except.bind, pure, Except.pure, Except.ok.injEq,
      reduceCtorEq] at h
  subst h
  rfl

theorem packItemPlacedPayload_length {t px py a sp : Int} {bs : List Nat}
    (h : packItemPlacedPayload t px py a sp = .ok bs) : bs.length = 24 := by
  unfold packItemPlacedPayload packi at h
  split_ifs at h <;>
    simp only [Bind.bind, Except.bind, pure, Except.pure, Except.ok.injEq,
      reduceCtorEq] at h
  subst h
  rfl

theorem packItemBoxPayload_length {i : Int} {bs : List Nat}
    (h : packItemBoxPayload i = .ok bs) : bs.length = 24 := by
  unfold packItemBoxPayload packi at h
  split_ifs at h <;>
    simp only [Bind.bind, Except.bind, pure, Except.pure, Except.ok.injEq,
      reduceCtorEq] at h
  subst h
  rfl

end KartMania

namespace KartMania

theorem build_packet_ok {st : SimulatedDSPlayer} {mt : Nat} {pl pkt : List Nat}
    {st1 : SimulatedDSPlayer} (h : build_packet st mt pl = .ok (pkt, st1)) :
    st.sequence_number < 4294967296 ∧
    pkt = [1, mt, st.player_id, 0, st.sequence_number % 256,
           st.sequence_number / 256 % 256, st.sequence_number / 65536 % 256,
           st.sequence_number / 16777216 % 256] ++ pl ∧
    st1 = { st with sequence_number := st.sequence_number + 1 } := by
  unfold build_packet at h
  cases hh : packHeader PROTOCOL_VERSION mt st.player_id 0 st.sequence_number with
  | error e => rw [hh] at h; simp [Bind.bind, Except.bind] at h
  | ok hdr =>
      rw [hh] at h
      simp only [Bind.bind, Except.bind, pure, Except.pure, Except.ok.injEq,
        Prod.mk.injEq] at h
      obtain ⟨hv, hm, hp, hq, hs, hbs⟩ := packHeader_eq_ok.mp hh
      exact ⟨hs, by rw [← h.1, hbs]; rfl, h.2.symm⟩

theorem build_packet_ok_of {st : SimulatedDSPlayer} {mt : Nat} (pl : List Nat)
    (hm : mt < 256) (hp : st.player_id < 256)
    (hs : st.sequence_number < 4294967296) :
    build_packet st mt pl = .ok
      ([1, mt, st.player_id, 0, st.sequence_number % 256,
        st.sequence_number / 256 % 256, st.sequence_number / 65536 % 256,
        st.sequence_number / 16777216 % 256] ++ pl,
       { st with sequence_number := st.sequence_number + 1 }) := by
  unfold build_packet
  rw [packHeader_eq_ok.mpr
    (by exact ⟨by norm_num [PROTOCOL_VERSION], hm, hp, by norm_num, hs, rfl⟩)]
  rfl

theorem build_packet_overflow {st : SimulatedDSPlayer} {mt : Nat} (pl : List Nat)
    (hs : 4294967296 ≤ st.sequence_number) :
    build_packet st mt pl = .error .structError := by
  unfold build_packet packHeader packB packI
  split_ifs <;> simp_all [Bind.bind, Except.bind] <;> omega

theorem simPayload_length {st : SimulatedDSPlayer} {m : SimMsg} {pl : List Nat}
    (h : simPayload st m = .ok pl) : pl.length = 24 := by
  cases m with
  | lobbyJoin => exact packLobbyPayload_length h
  | lobbyUpdate => exact packLobbyPayload_length h
  | ready => exact packLobbyPayload_length h
  | carUpdate => exact packCarPayload_length h
  | itemPlaced t => exact packItemPlacedPayload_length h
  | disconnect =>
      simp only [simPayload, Except.ok.injEq] at h
      rw [← h]
      rfl

theorem uint32_digits {s : Nat} (h : s < 4294967296) :
    s % 256 + 256 * (s / 256 % 256) + 65536 * (s / 65536 % 256) +
      16777216 * (s / 16777216 % 256) = s := by
  omega

theorem simBuild_ok {st : SimulatedDSPlayer} {m : SimMsg} {pkt : List Nat}
    {st1 : SimulatedDSPlayer} (h : simBuild st m = .ok (pkt, st1)) :
    pkt.length = 32 ∧ seqOf pkt = st.sequence_number ∧
    st1 = { st with sequence_number := st.sequence_number + 1 } := by
  unfold simBuild at h
  cases hp : simPayload st m with
  | error e => rw [hp] at h; simp [Bind.bind, Except.bind] at h
  | ok pl =>
      rw [hp] at h
      simp only [Bind.bind, Except.bind] at h
      obtain ⟨hs, hpkt, hst⟩ := build_packet_ok h
      refine ⟨?_, ?_, hst⟩
      · rw [hpkt]
        simp [simPayload_length hp]
      · rw [hpkt]
        unfold seqOf
        simp only [List.cons_append, List.getD_cons_succ, List.getD_cons_zero]
        exact uint32_digits hs

end KartMania

namespace KartMania

theorem send_lobby_join_ok {st : SimulatedDSPlayer} {b : Bool} {pkt : List Nat}
    {st1 : SimulatedDSPlayer} (h : send_lobby_join st b = .ok (pkt, st1)) :
    seqOf pkt = st.sequence_number ∧
    st1.sequence_number = st.sequence_number + 1 := by
  unfold send_lobby_join at h
  cases hb : simBuild st .lobbyJoin with
  | error e => rw [hb] at h; simp at h
  | ok r =>
      rw [hb] at h
      obtain ⟨pkt0, st0⟩ := r
      obtain ⟨-, hseq, hst⟩ := simBuild_ok hb
      split_ifs at h <;> simp only [Except.ok.injEq, Prod.mk.injEq] at h
      obtain ⟨h1, h2⟩ := h
      subst h1
      rw [← h2, hst]
      exact ⟨hseq, rfl⟩


theorem send_lobby_update_ok {st : SimulatedDSPlayer} {b : Bool} {pkt : List Nat}
    {st1 : SimulatedDSPlayer} (h : send_lobby_update st b = .ok (pkt, st1)) :
    seqOf pkt = st.sequence_number ∧
    st1.sequence_number = st.sequence_number + 1 := by
  unfold send_lobby_update at h
  cases hb : simBuild st .lobbyUpdate with
  | error e => rw [hb] at h; simp at h
  | ok r =>
      rw [hb] at h
      obtain ⟨pkt0, st0⟩ := r
      obtain ⟨-, hseq, hst⟩ := simBuild_ok hb
      split_ifs at h <;> simp only [Except.ok.injEq, Prod.mk.injEq] at h <;>
        obtain ⟨h1, h2⟩ := h <;> subst h1 <;> rw [← h2, hst] <;> exact ⟨hseq, rfl⟩

theorem send_ready_ok {st : SimulatedDSPlayer} {b : Bool} {pkt : List Nat}
    {st1 : SimulatedDSPlayer} (h : send_ready st b = .ok (pkt, st1)) :
    seqOf pkt = st.sequence_number ∧
    st1.sequence_number = st.sequence_number + 1 := by
  unfold send_ready at h
  cases hb : simBuild st .ready with
  | error e => rw [hb] at h; simp at h
  | ok r =>
      rw [hb] at h
      obtain ⟨pkt0, st0⟩ := r
      obtain ⟨-, hseq, hst⟩ := simBuild_ok hb
      split_ifs at h <;> simp only [Except.ok.injEq, Prod.mk.injEq] at h
      obtain ⟨h1, h2⟩ := h
      subst h1
      rw [← h2, hst]
      exact ⟨hseq, rfl⟩

theorem send_car_update_ok {st : SimulatedDSPlayer} {b : Bool} {pkt : List Nat}
    {st1 : SimulatedDSPlayer} (h : send_car_update st b = .ok (pkt, st1)) :
    seqOf pkt = st.sequence_number ∧
    st1.sequence_number = st.sequence_number + 1 := by
  unfold send_car_update at h
  cases hb : simBuild st .carUpdate with
  | error e => rw [hb] at h; simp at h
  | ok r =>
      rw [hb] at h
      obtain ⟨pkt0, st0⟩ := r
      obtain ⟨-, hseq, hst⟩ := simBuild_ok hb
      split_ifs at h <;> simp only [Except.ok.injEq, Prod.mk.injEq] at h
      obtain ⟨h1, h2⟩ := h
      subst h1
      rw [← h2, hst]
      exact ⟨hseq, rfl⟩

theorem send_item_placed_ok {st : SimulatedDSPlayer} {t : Int} {b : Bool}
    {pkt : List Nat} {st1 : SimulatedDSPlayer}
    (h : send_item_placed st t b = .ok (pkt, st1)) :
    seqOf pkt = st.sequence_number ∧
    st1.sequence_number = st.sequence_number + 1 := by
  unfold send_item_placed at h
  cases hb : simBuild st (.itemPlaced t) with
  | error e => rw [hb] at h; simp at h
  | ok r =>
      rw [hb] at h
      obtain ⟨pkt0, st0⟩ := r
      obtain ⟨-, hseq, hst⟩ := simBuild_ok hb
      split_ifs at h <;> simp only [Except.ok.injEq, Prod.mk.injEq] at h
      obtain ⟨h1, h2⟩ := h
      subst h1
      rw [← h2, hst]
      exact ⟨hseq, rfl⟩

theorem send_disconnect_ok {st : SimulatedDSPlayer} {b : Bool} {pkt : List Nat}
    {st1 : SimulatedDSPlayer} (h : send_disconnect st b = .ok (pkt, st1)) :
    seqOf pkt = st.sequence_number ∧
    st1.sequence_number = st.sequence_number + 1 := by
  unfold send_disconnect at h
  cases hb : simBuild st .disconnect with
  | error e => rw [hb] at h; simp at h
  | ok r =>
      rw [hb] at h
      obtain ⟨pkt0, st0⟩ := r
      obtain ⟨-, hseq, hst⟩ := simBuild_ok hb
      split_ifs at h <;> simp only [Except.ok.injEq, Prod.mk.injEq] at h <;>
        obtain ⟨h1, h2⟩ := h <;> subst h1 <;> rw [← h2, hst] <;> exact ⟨hseq, rfl⟩

theorem stepEvent_ok {st : SimulatedDSPlayer} {ev : Event}
    {st1 : SimulatedDSPlayer} {ps : List (List Nat)}
    (h : stepEvent st ev = .ok (st1, ps)) :
    (ps = [] ∧ st1.sequence_number = st.sequence_number) ∨
    (∃ p, ps = [p] ∧ seqOf p = st.sequence_number ∧
      st1.sequence_number = st.sequence_number + 1) := by
  cases ev with
  | heartbeatTick b =>
      simp only [stepEvent] at h
      cases hs : send_lobby_update st b with
      | error e => rw [hs] at h; simp [Except.map] at h
      | ok r =>
          obtain ⟨pkt, st0⟩ := r
          rw [hs] at h
          simp only [Except.map, Except.ok.injEq, Prod.mk.injEq] at h
          obtain ⟨h1, h2⟩ := h
          subst h1 h2
          exact .inr ⟨pkt, rfl, send_lobby_update_ok hs⟩
  | lobbyKey c b =>
      simp only [stepEvent] at h
      split_ifs at h with h1 h2 h3
      · cases hs : send_ready { st with is_ready := !st.is_ready } b with
        | error e => rw [hs] at h; simp [Except.map] at h
        | ok r =>
            obtain ⟨pkt, st0⟩ := r
            rw [hs] at h
            simp only [Except.map, Except.ok.injEq, Prod.mk.injEq] at h
            obtain ⟨ha, hb'⟩ := h
            subst ha hb'
            have hsr := send_ready_ok hs
            exact .inr ⟨pkt, rfl, hsr⟩
      · simp only [Except.ok.injEq, Prod.mk.injEq] at h
        obtain ⟨ha, hb'⟩ := h
        subst ha hb'
        exact .inl ⟨rfl, rfl⟩
      · simp only [Except.ok.injEq, Prod.mk.injEq] at h
        obtain ⟨ha, hb'⟩ := h
        subst ha hb'
        exact .inl ⟨rfl, rfl⟩
      · simp only [Except.ok.injEq, Prod.mk.injEq] at h
        obtain ⟨ha, hb'⟩ := h
        subst ha hb'
        exact .inl ⟨rfl, rfl⟩
  | raceKey c b =>
      simp only [stepEvent] at h
      split_ifs at h with h1 h2 h3 h4
      · cases hs : send_item_placed st ITEM_BANANA b with
        | error e => rw [hs] at h; simp [Except.map] at h
        | ok r =>
            obtain ⟨pkt, st0⟩ := r
            rw [hs] at h
            simp only [Except.map, Except.ok.injEq, Prod.mk.injEq] at h
            obtain ⟨ha, hb'⟩ := h
            subst ha hb'
            exact .inr ⟨pkt, rfl, send_item_placed_ok hs⟩
      · cases hs : send_item_placed st ITEM_GREEN_SHELL b with
        | error e => rw [hs] at h; simp [Except.map] at h
        | ok r =>
            obtain ⟨pkt, st0⟩ := r
            rw [hs] at h
            simp only [Except.map, Except.ok.injEq, Prod.mk.injEq] at h
            obtain ⟨ha, hb'⟩ := h
            subst ha hb'
            exact .inr ⟨pkt, rfl, send_item_placed_ok hs⟩
      · cases hs : send_lobby_join { st with in_race := false, is_ready := false } b with
        | error e => rw [hs] at h; simp [Except.map] at h
        | ok r =>
            obtain ⟨pkt, st0⟩ := r
            rw [hs] at h
            simp only [Except.map, Except.ok.injEq, Prod.mk.injEq] at h
            obtain ⟨ha, hb'⟩ := h
            subst ha hb'
            have hsr := send_lobby_join_ok hs
            exact .inr ⟨pkt, rfl, hsr⟩
      · simp only [Except.ok.injEq, Prod.mk.injEq] at h
        obtain ⟨ha, hb'⟩ := h
        subst ha hb'
        exact .inl ⟨rfl, rfl⟩
      · simp only [Except.ok.injEq, Prod.mk.injEq] at h
        obtain ⟨ha, hb'⟩ := h
        subst ha hb'
        exact .inl ⟨rfl, rfl⟩
  | carTick dx dy b =>
      simp only [stepEvent] at h
      cases hs : send_car_update (update_car_physics st dx dy) b with
      | error e => rw [hs] at h; simp [Except.map] at h
      | ok r =>
          obtain ⟨pkt, st0⟩ := r
          rw [hs] at h
          simp only [Except.map, Except.ok.injEq, Prod.mk.injEq] at h
          obtain ⟨ha, hb'⟩ := h
          subst ha hb'
          have hsr := send_car_update_ok hs
          exact .inr ⟨pkt, rfl, hsr⟩
  | joinLobby b =>
      simp only [stepEvent] at h
      cases hs : send_lobby_join st b with
      | error e => rw [hs] at h; simp [Except.map] at h
      | ok r =>
          obtain ⟨pkt, st0⟩ := r
          rw [hs] at h
          simp only [Except.map, Except.ok.injEq, Prod.mk.injEq] at h
          obtain ⟨ha, hb'⟩ := h
          subst ha hb'
          exact .inr ⟨pkt, rfl, send_lobby_join_ok hs⟩


theorem runEvents_seq : ∀ (evs : List Event) (st st2 : SimulatedDSPlayer)
    (pkts : List (List Nat)), runEvents st evs = .ok (st2, pkts) →
    pkts.map seqOf = List.range' st.sequence_number pkts.length ∧
    st2.sequence_number = st.sequence_number + pkts.length := by
  intro evs
  induction evs with
  | nil =>
      intro st st2 pkts h
      simp only [runEvents, Except.ok.injEq, Prod.mk.injEq] at h
      obtain ⟨h1, h2⟩ := h
      subst h1 h2
      simp [List.range']
  | cons ev evs ih =>
      intro st st2 pkts h
      simp only [runEvents] at h
      cases hs : stepEvent st ev with
      | error e => rw [hs] at h; simp at h
      | ok r =>
          obtain ⟨st1, ps⟩ := r
          rw [hs] at h
          dsimp only at h
          cases hr : runEvents st1 evs with
          | error e => rw [hr] at h; simp at h
          | ok r2 =>
              obtain ⟨st3, qs⟩ := r2
              rw [hr] at h
              simp only [Except.ok.injEq, Prod.mk.injEq] at h
              obtain ⟨h1, h2⟩ := h
              subst h2
              subst h1
              obtain ⟨ihm, ihs⟩ := ih st1 st3 qs hr
              rcases stepEvent_ok hs with ⟨hps, hseq⟩ | ⟨p, hps, hp1, hp2⟩
              · subst hps
                simp only [List.nil_append]
                rw [ihm, ihs, hseq]
                exact ⟨rfl, rfl⟩
              · subst hps
                simp only [List.cons_append, List.nil_append, List.map_cons,
                  List.length_cons]
                constructor
                · rw [ihm, hp1, hp2, List.range'_succ]
                · omega


theorem getD_take_lt {l : List Nat} {n m : Nat} (h : m < n) :
    (l.take n).getD m 0 = l.getD m 0 := by
  simp [List.getD_eq_getElem?_getD, List.getElem?_take, h]

theorem unpackHeader8_take {data : List Nat} (h8 : 8 ≤ data.length) :
    unpackHeader8 (data.take 8) =
      some (data.getD 0 0, data.getD 1 0, data.getD 2 0, data.getD 3 0,
        data.getD 4 0 + 256 * data.getD 5 0 + 65536 * data.getD 6 0 +
          16777216 * data.getD 7 0) := by
  unfold unpackHeader8
  rw [if_pos (by simp only [List.length_take]; omega)]
  simp [getD_take_lt]

theorem receiveBody_self_echo {st : SimulatedDSPlayer} {data : List Nat}
    (h8 : 8 ≤ data.length) (hid : data.getD 2 0 = st.player_id) :
    receiveBody st data = .ok (st, none) := by
  unfold receiveBody
  rw [if_pos h8, unpackHeader8_take h8]
  dsimp only
  rw [if_pos hid]

theorem receiveBody_never_raises (st : SimulatedDSPlayer) (data : List Nat) :
    ∃ r, receiveBody st data = .ok r := by
  by_cases h8 : 8 ≤ data.length
  · unfold receiveBody
    rw [if_pos h8, unpackHeader8_take h8]
    dsimp only
    by_cases hid : data.getD 2 0 = st.player_id
    · rw [if_pos hid]
      exact ⟨_, rfl⟩
    · rw [if_neg hid]
      by_cases h7 : data.getD 1 0 < 7
      · rw [if_pos h7]
        have hmn : messageTypeName (data.getD 1 0) = some (data.getD 1 0) := by
          unfold messageTypeName
          rw [if_pos (by omega)]
        rw [hmn]
        dsimp only
        split
        · exact ⟨_, rfl⟩
        · exact ⟨_, rfl⟩
      · rw [if_neg h7]
        exact ⟨_, rfl⟩
  · unfold receiveBody
    rw [if_neg h8]
    exact ⟨_, rfl⟩

theorem receiveBody_short {st : SimulatedDSPlayer} {data : List Nat}
    (h : data.length < 8) : receiveBody st data = .ok (st, none) := by
  unfold receiveBody
  rw [if_neg (by omega)]

theorem receiveBody_headers_only {st : SimulatedDSPlayer} {d1 d2 : List Nat}
    (h1 : 8 ≤ d1.length) (h2 : 8 ≤ d2.length) (ht : d1.take 8 = d2.take 8) :
    receiveBody st d1 = receiveBody st d2 := by
  unfold receiveBody
  rw [if_pos h1, if_pos h2, ht]

theorem receiveBody_version_blind (st : SimulatedDSPlayer) (v w : Nat)
    (rest : List Nat) :
    receiveBody st (v :: rest) = receiveBody st (w :: rest) := by
  by_cases h8 : 8 ≤ (v :: rest).length
  · have h8' : 8 ≤ (w :: rest).length := by
      simp only [List.length_cons] at h8 ⊢
      omega
    unfold receiveBody
    rw [if_pos h8, if_pos h8', unpackHeader8_take h8, unpackHeader8_take h8']
    simp only [List.getD_cons_succ]
  · have h8' : ¬ 8 ≤ (w :: rest).length := by
      simp only [List.length_cons] at h8 ⊢
      omega
    unfold receiveBody
    rw [if_neg h8, if_neg h8']


theorem pyInt_err (x : ℚ) : |((pyInt x : ℚ)) - x| < 1 := by
  unfold pyInt
  split_ifs with h
  · rw [abs_lt]
    constructor
    · have := Int.sub_one_lt_floor x
      push_cast
      have h2 := Int.floor_le x
      push_cast at this h2
      linarith
    · have := Int.floor_le x
      push_cast
      push_cast at this
      linarith
  · rw [abs_lt]
    constructor
    · have := Int.le_ceil x
      push_cast
      push_cast at this
      linarith
    · have := Int.ceil_lt_add_one x
      push_cast
      push_cast at this
      linarith

theorem fromQ16_8_toQ16_8_close (v : ℚ) : |fromQ16_8 (toQ16_8 v) - v| < 1 / 256 := by
  unfold fromQ16_8 toQ16_8
  have h := pyInt_err (v * 256)
  rw [show ((pyInt (v * 256) : ℚ)) / 256 - v =
      (((pyInt (v * 256) : ℚ)) - v * 256) / 256 by ring]
  rw [abs_div, show |(256 : ℚ)| = 256 by norm_num]
  linarith

theorem toQ16_8_fromQ16_8 (z : Int) : toQ16_8 (fromQ16_8 z) = z := by
  unfold fromQ16_8 toQ16_8 pyInt
  rw [div_mul_cancel₀ _ (by norm_num : (256 : ℚ) ≠ 0)]
  split_ifs with h
  · exact Int.floor_intCast z
  · exact Int.ceil_intCast z

theorem npb_header_ok {b : NetworkPacketBuilder} {mt : Nat} {hd : List Nat}
    {b1 : NetworkPacketBuilder} (hh : NetworkPacketBuilder.header b mt = .ok (hd, b1)) :
    hd.length = 8 := by
  unfold NetworkPacketBuilder.header at hh
  cases hp : packHeader PROTOCOL_VERSION mt b.player_id 0 b.sequence_number with
  | error e => rw [hp] at hh; simp at hh
  | ok h0 =>
      rw [hp] at hh
      simp only [Except.ok.injEq, Prod.mk.injEq] at hh
      obtain ⟨h1, -⟩ := hh
      obtain ⟨-, -, -, -, -, hbs⟩ := packHeader_eq_ok.mp hp
      rw [← h1, hbs]
      rfl

theorem npbBuild_length {b : NetworkPacketBuilder} {m : NPBMsg} {pkt : List Nat}
    {b1 : NetworkPacketBuilder} (h : npbBuild b m = .ok (pkt, b1)) :
    pkt.length = 32 := by
  cases m with
  | lobbyJoin =>
      unfold npbBuild NetworkPacketBuilder.build_lobby_join at h
      cases hh : NetworkPacketBuilder.header b MSG_LOBBY_JOIN with
      | error e => rw [hh] at h; simp [Bind.bind, Except.bind] at h
      | ok r =>
          obtain ⟨hd, b'⟩ := r
          rw [hh] at h
          simp only [Bind.bind, Except.bind] at h
          cases hp : packLobbyPayload 0 with
          | error e => rw [hp] at h; simp at h
          | ok p =>
              rw [hp] at h
              simp only [Except.ok.injEq, Prod.mk.injEq] at h
              rw [← h.1, List.length_append, npb_header_ok hh,
                packLobbyPayload_length hp]
  | lobbyUpdate r0 =>
      unfold npbBuild NetworkPacketBuilder.build_lobby_update at h
      cases hh : NetworkPacketBuilder.header b MSG_LOBBY_UPDATE with
      | error e => rw [hh] at h; simp [Bind.bind, Except.bind] at h
      | ok r =>
          obtain ⟨hd, b'⟩ := r
          rw [hh] at h
          simp only [Bind.bind, Except.bind] at h
          cases hp : packLobbyPayload (if r0 then 1 else 0) with
          | error e => rw [hp] at h; simp at h
          | ok p =>
              rw [hp] at h
              simp only [Except.ok.injEq, Prod.mk.injEq] at h
              rw [← h.1, List.length_append, npb_header_ok hh,
                packLobbyPayload_length hp]
  | ready r0 =>
      unfold npbBuild NetworkPacketBuilder.build_ready at h
      cases hh : NetworkPacketBuilder.header b MSG_READY with
      | error e => rw [hh] at h; simp [Bind.bind, Except.bind] at h
      | ok r =>
          obtain ⟨hd, b'⟩ := r
          rw [hh] at h
          simp only [Bind.bind, Except.bind] at h
          cases hp : packLobbyPayload (if r0 then 1 else 0) with
          | error e => rw [hp] at h; simp at h
          | ok p =>
              rw [hp] at h
              simp only [Except.ok.injEq, Prod.mk.injEq] at h
              rw [← h.1, List.length_append, npb_header_ok hh,
                packLobbyPayload_length hp]
  | carUpdate px py sp a l i =>
      unfold npbBuild NetworkPacketBuilder.build_car_update at h
      cases hh : NetworkPacketBuilder.header b MSG_CAR_UPDATE with
      | error e => rw [hh] at h; simp [Bind.bind, Except.bind] at h
      | ok r =>
          obtain ⟨hd, b'⟩ := r
          rw [hh] at h
          simp only [Bind.bind, Except.bind] at h
          cases hp : packCarPayload (toQ16_8 px) (toQ16_8 py) (toQ16_8 sp) a l i with
          | error e => rw [hp] at h; simp at h
          | ok p =>
              rw [hp] at h
              simp only [Except.ok.injEq, Prod.mk.injEq] at h
              rw [← h.1, List.length_append, npb_header_ok hh,
                packCarPayload_length hp]
  | itemPlaced t px py a sp =>
      unfold npbBuild NetworkPacketBuilder.build_item_placed at h
      cases hh : NetworkPacketBuilder.header b MSG_ITEM_PLACED with
      | error e => rw [hh] at h; simp [Bind.bind, Except.bind] at h
      | ok r =>
          obtain ⟨hd, b'⟩ := r
          rw [hh] at h
          simp only [Bind.bind, Except.bind] at h
          cases hp : packItemPlacedPayload t (toQ16_8 px) (toQ16_8 py) a (toQ16_8 sp) with
          | error e => rw [hp] at h; simp at h
          | ok p =>
              rw [hp] at h
              simp only [Except.ok.injEq, Prod.mk.injEq] at h
              rw [← h.1, List.length_append, npb_header_ok hh,
                packItemPlacedPayload_length hp]
  | itemBoxPickup i =>
      unfold npbBuild NetworkPacketBuilder.build_item_box_pickup at h
      cases hh : NetworkPacketBuilder.header b MSG_ITEM_BOX_PICKUP with
      | error e => rw [hh] at h; simp [Bind.bind, Except.bind] at h
      | ok r =>
          obtain ⟨hd, b'⟩ := r
          rw [hh] at h
          simp only [Bind.bind, Except.bind] at h
          cases hp : packItemBoxPayload i with
          | error e => rw [hp] at h; simp at h
          | ok p =>
              rw [hp] at h
              simp only [Except.ok.injEq, Prod.mk.injEq] at h
              rw [← h.1, List.length_append, npb_header_ok hh,
                packItemBoxPayload_length hp]
  | disconnect =>
      unfold npbBuild NetworkPacketBuilder.build_disconnect at h
      cases hh : NetworkPacketBuilder.header b MSG_DISCONNECT with
      | error e => rw [hh] at h; simp [Bind.bind, Except.bind] at h
      | ok r =>
          obtain ⟨hd, b'⟩ := r
          rw [hh] at h
          simp only [Bind.bind, Except.bind, Except.ok.injEq, Prod.mk.injEq] at h
          rw [← h.1, List.length_append, npb_header_ok hh]
          rfl


end KartMania

namespace KartMania

/-- C1: for every message type and all argument values, a successfully built
packet — `SimulatedDSPlayer.build_packet` composed with each of the
simulator's `send_*` payload constructions, and every
`NetworkPacketBuilder.build_*` method — is exactly 32 bytes long: an 8-byte
header followed by a 24-byte payload. -/
theorem claim_C1_packet_size_32 :
    (∀ (st : SimulatedDSPlayer) (m : SimMsg) (pkt : List Nat)
      (st1 : SimulatedDSPlayer), simBuild st m = .ok (pkt, st1) →
        pkt.length = 32) ∧
    (∀ (b : NetworkPacketBuilder) (m : NPBMsg) (pkt : List Nat)
      (b1 : NetworkPacketBuilder), npbBuild b m = .ok (pkt, b1) →
        pkt.length = 32) :=
  ⟨fun _ _ _ _ h => (simBuild_ok h).1, fun _ _ _ _ h => npbBuild_length h⟩

/-- Witness for C1 at a concrete lobby-join build and a concrete
`NetworkPacketBuilder` disconnect build. -/
theorem claim_C1_packet_size_32_witness :
    simBuild stA .lobbyJoin =
      .ok ([1, 0, 1, 0, 0, 0, 0, 0] ++ List.replicate 24 0,
        { stA with sequence_number := 1 }) ∧
    ([1, 0, 1, 0, 0, 0, 0, 0] ++ List.replicate 24 0 : List Nat).length = 32 ∧
    npbBuild ⟨7, 0⟩ .disconnect =
      .ok ([1, 6, 7, 0, 0, 0, 0, 0] ++ List.replicate 24 0, ⟨7, 1⟩) ∧
    ([1, 6, 7, 0, 0, 0, 0, 0] ++ List.replicate 24 0 : List Nat).length = 32 :=
  ⟨rfl, claim_C1_packet_size_32.1 stA .lobbyJoin _ _ rfl,
   rfl, claim_C1_packet_size_32.2 ⟨7, 0⟩ .disconnect _ _ rfl⟩

/-- C2: over any run of session events — heartbeats, ready toggles, race
start, car-update ticks, item drops, return to lobby — the sequence numbers
stamped into the built packets are exactly consecutive (strictly increasing,
no repeats, no gaps), each build consumes exactly one increment at build
time, and the counter is never reset: it ends at the initial value plus the
number of packets built. -/
theorem claim_C2_sequence_monotonic (st : SimulatedDSPlayer) (evs : List Event)
    (st2 : SimulatedDSPlayer) (pkts : List (List Nat))
    (h : runEvents st evs = .ok (st2, pkts)) :
    pkts.map seqOf = List.range' st.sequence_number pkts.length ∧
    st2.sequence_number = st.sequence_number + pkts.length :=
  runEvents_seq evs st st2 pkts h

/-- Witness for C2 on a concrete three-event trace (failed heartbeat, ready
toggle, successful heartbeat): sequence numbers 0, 1, 2. -/
theorem claim_C2_sequence_monotonic_witness :
    runEvents stA traceB =
      .ok ({ stA with sequence_number := 3, is_ready := true, packets_sent := 2 },
        [[1,1,1,0,0,0,0,0,0,0,0,0,0,0,0,0,0,0,0,0,0,0,0,0,0,0,0,0,0,0,0,0],
         [1,2,1,0,1,0,0,0,1,0,0,0,0,0,0,0,0,0,0,0,0,0,0,0,0,0,0,0,0,0,0,0],
         [1,1,1,0,2,0,0,0,1,0,0,0,0,0,0,0,0,0,0,0,0,0,0,0,0,0,0,0,0,0,0,0]]) ∧
    List.map seqOf
        [[1,1,1,0,0,0,0,0,0,0,0,0,0,0,0,0,0,0,0,0,0,0,0,0,0,0,0,0,0,0,0,0],
         [1,2,1,0,1,0,0,0,1,0,0,0,0,0,0,0,0,0,0,0,0,0,0,0,0,0,0,0,0,0,0,0],
         [1,1,1,0,2,0,0,0,1,0,0,0,0,0,0,0,0,0,0,0,0,0,0,0,0,0,0,0,0,0,0,0]] =
      List.range' 0 3 ∧
    ({ stA with sequence_number := 3, is_ready := true, packets_sent := 2 }
      : SimulatedDSPlayer).sequence_number = 0 + 3 := by
  have h : runEvents stA traceB =
      .ok ({ stA with sequence_number := 3, is_ready := true, packets_sent := 2 },
        [[1,1,1,0,0,0,0,0,0,0,0,0,0,0,0,0,0,0,0,0,0,0,0,0,0,0,0,0,0,0,0,0],
         [1,2,1,0,1,0,0,0,1,0,0,0,0,0,0,0,0,0,0,0,0,0,0,0,0,0,0,0,0,0,0,0],
         [1,1,1,0,2,0,0,0,1,0,0,0,0,0,0,0,0,0,0,0,0,0,0,0,0,0,0,0,0,0,0,0]]) := rfl
  exact ⟨h, (claim_C2_sequence_monotonic stA traceB _ _ h).1,
    (claim_C2_sequence_monotonic stA traceB _ _ h).2⟩

end KartMania

namespace KartMania

/-- C3 counterexample: at `v = 3/1024` the code's Q16.8 encoding `int(v*256)`
yields 0, while rounding `v*256 = 0.75` to the nearest integer yields 1
(0.75 is not a tie, so no tie convention can reconcile them): the encoding
truncates, it does not round. -/
theorem claim_C3_round_counterexample :
    toQ16_8 (3 / 1024) = 0 ∧ (round ((3 / 1024 : ℚ) * 256) : ℤ) = 1 ∧
    toQ16_8 (3 / 1024) ≠ round ((3 / 1024 : ℚ) * 256) := by
  have h1 : toQ16_8 (3 / 1024) = 0 := by norm_num [toQ16_8, pyInt]
  have h2 : (round ((3 / 1024 : ℚ) * 256) : ℤ) = 1 := by norm_num [round_eq]
  refine ⟨h1, h2, ?_⟩
  rw [h1, h2]
  decide

/-- C3 amended: the Q16.8 encoding is Python `int()` truncation toward zero
of `v*256` (floor for `v ≥ 0`, ceiling for `v < 0`), not round-to-nearest;
the decoded value `fixed / 256` is within `1/256` of `v`, and decoding a
stored field then re-encoding it is exact. -/
theorem claim_C3_truncation :
    (∀ v : ℚ, 0 ≤ v → toQ16_8 v = ⌊v * 256⌋) ∧
    (∀ v : ℚ, v < 0 → toQ16_8 v = ⌈v * 256⌉) ∧
    (∀ v : ℚ, |fromQ16_8 (toQ16_8 v) - v| < 1 / 256) ∧
    (∀ z : ℤ, toQ16_8 (fromQ16_8 z) = z) := by
  refine ⟨?_, ?_, fromQ16_8_toQ16_8_close, toQ16_8_fromQ16_8⟩
  · intro v hv
    unfold toQ16_8 pyInt
    rw [if_pos (mul_nonneg hv (by norm_num))]
  · intro v hv
    unfold toQ16_8 pyInt
    rw [if_neg (by push_neg; exact mul_neg_of_neg_of_pos hv (by norm_num))]

/-- Witness for C3 amended at `v = 3/2`, `v = -(3/2)` and stored field 5. -/
theorem claim_C3_truncation_witness :
    toQ16_8 (3 / 2) = ⌊(3 / 2 : ℚ) * 256⌋ ∧
    toQ16_8 (-(3 / 2)) = ⌈(-(3 / 2) : ℚ) * 256⌉ ∧
    |fromQ16_8 (toQ16_8 (3 / 2)) - 3 / 2| < 1 / 256 ∧
    toQ16_8 (fromQ16_8 5) = 5 :=
  ⟨claim_C3_truncation.1 _ (by norm_num), claim_C3_truncation.2.1 _ (by norm_num),
   claim_C3_truncation.2.2.1 _, claim_C3_truncation.2.2.2 5⟩

/-- C4: encoding a CarUpdate with posX=100.0, posY=200.0, speed=5.0,
angle=256, lap=1, item=0 — via `NetworkPacketBuilder.build_car_update` and
via the simulator's car-update payload construction — yields the 24-byte
payload equal to the six four-byte little-endian signed integers
(25600, 51200, 1280, 256, 1, 0), and decoding that payload recovers the
original values exactly after the fixed-point round-trip. -/
theorem claim_C4_car_update_scenario :
    NetworkPacketBuilder.build_car_update ⟨7, 0⟩ 100 200 5 256 1 0 =
      .ok ([1, 3, 7, 0, 0, 0, 0, 0] ++ carScenarioBytes, ⟨7, 1⟩) ∧
    packCarPayload 25600 51200 1280 256 1 0 = .ok carScenarioBytes ∧
    simPayload stCar .carUpdate = .ok carScenarioBytes ∧
    decodeCarPayload carScenarioBytes = some (100, 200, 5, 256, 1, 0) := by
  have h1 : toQ16_8 100 = 25600 := by norm_num [toQ16_8, pyInt]
  have h2 : toQ16_8 200 = 51200 := by norm_num [toQ16_8, pyInt]
  have h3 : toQ16_8 5 = 1280 := by norm_num [toQ16_8, pyInt]
  refine ⟨?_, rfl, ?_, ?_⟩
  · simp only [NetworkPacketBuilder.build_car_update, h1, h2, h3]
    rfl
  · simp only [simPayload, stCar, stA, h1, h2, h3]
    rfl
  · simp [decodeCarPayload, carScenarioBytes, decodeInt32LE, fromQ16_8]
    norm_num

/-- C5: a received datagram of length at least 8 whose participantId byte
equals the local session's player id is discarded entirely: the state is
unchanged (in particular `packets_received` is not incremented) and nothing
is displayed. -/
theorem claim_C5_self_echo (st : SimulatedDSPlayer) (data : List Nat)
    (h8 : 8 ≤ data.length) (hid : data.getD 2 0 = st.player_id) :
    receiveBody st data = .ok (st, none) ∧
    receive_packets st data = (st, none) := by
  have hb := receiveBody_self_echo h8 hid
  refine ⟨hb, ?_⟩
  unfold receive_packets
  rw [hb]

/-- Witness for C5: an 8-byte datagram carrying the local id 1. -/
theorem claim_C5_self_echo_witness :
    receiveBody stA [1, 0, 1, 0, 9, 0, 0, 0] = .ok (stA, none) ∧
    receive_packets stA [1, 0, 1, 0, 9, 0, 0, 0] = (stA, none) :=
  claim_C5_self_echo stA _ (by decide) (by decide)

end KartMania

namespace KartMania

/-- C6 counterexample: the receive path accepts a datagram whose version
byte is 2 (≠ `PROTOCOL_VERSION`) from another player and processes it
fully — `packets_received` is incremented and the message is displayed —
contradicting the claimed rejection of mismatched versions. -/
theorem claim_C6_version_counterexample :
    (2 : Nat) ≠ PROTOCOL_VERSION ∧
    receive_packets stA [2, 0, 3, 0, 0, 0, 0, 0] =
      ({ stA with packets_received := stA.packets_received + 1 }, some (0, 3)) :=
  ⟨by decide, rfl⟩

/-- C6 amended: the receive path performs no protocolVersion validation at
all — replacing the version byte of any datagram by any other value leaves
the receive behaviour (state change and display) unchanged, so a message
with version ≠ 1 is processed exactly like one with version 1. -/
theorem claim_C6_version_blind (st : SimulatedDSPlayer) (v w : Nat)
    (rest : List Nat) :
    receiveBody st (v :: rest) = receiveBody st (w :: rest) ∧
    receive_packets st (v :: rest) = receive_packets st (w :: rest) := by
  have hb := receiveBody_version_blind st v w rest
  refine ⟨hb, ?_⟩
  unfold receive_packets
  rw [hb]

/-- C7: the body of `receive_packets` never raises, for a datagram of any
length and content (message types outside 0..6 included); a datagram
shorter than 8 bytes is dropped without being parsed — state unchanged,
nothing displayed. -/
theorem claim_C7_receive_total (st : SimulatedDSPlayer) (data : List Nat) :
    (∃ r, receiveBody st data = .ok r) ∧
    (data.length < 8 → receiveBody st data = .ok (st, none)) :=
  ⟨receiveBody_never_raises st data, fun h => receiveBody_short h⟩

/-- Witness for C7 on a 5-byte buffer: decoding is skipped, no crash. -/
theorem claim_C7_receive_total_witness :
    (∃ r, receiveBody stA [222, 173, 190, 239, 0] = .ok r) ∧
    receiveBody stA [222, 173, 190, 239, 0] = .ok (stA, none) :=
  ⟨(claim_C7_receive_total stA [222, 173, 190, 239, 0]).1,
   (claim_C7_receive_total stA [222, 173, 190, 239, 0]).2 (by decide)⟩

/-- C8 counterexample: an OS-level send failure during a ready or a
car-update send is not swallowed — `send_ready` and `send_car_update` have
no `try`/`except` around `sendto`, so the `OSError` propagates out of the
send (only the heartbeat and the final disconnect are protected). -/
theorem claim_C8_swallow_counterexample :
    send_ready stA false = .error (.osError, { stA with sequence_number := 1 }) ∧
    send_car_update stA false =
      .error (.osError, { stA with sequence_number := 1 }) := by
  constructor
  · rfl
  · have h0 : toQ16_8 0 = 0 := by norm_num [toQ16_8, pyInt]
    have hb : simBuild stA .carUpdate =
        .ok ([1, 3, 1, 0, 0, 0, 0, 0] ++
          [0, 0, 0, 0, 0, 0, 0, 0, 0, 0, 0, 0, 0, 0, 0, 0, 1, 0, 0, 0, 0, 0, 0, 0],
          { stA with sequence_number := 1 }) := by
      simp only [simBuild, simPayload, stA, h0]
      rfl
    unfold send_car_update
    rw [hb]
    rfl

/-- C8 amended: on an OS-level send failure, only the lobby heartbeat
(`send_lobby_update`) and the final `send_disconnect` swallow the error and
continue; `send_lobby_join`, `send_ready`, `send_car_update` and
`send_item_placed` propagate the `OSError` out of the send (after the build
already consumed a sequence number), which is fatal to the session loop. -/
theorem claim_C8_send_error_policy (st : SimulatedDSPlayer) :
    (∀ pkt st1, simBuild st .lobbyUpdate = .ok (pkt, st1) →
      send_lobby_update st false = .ok (pkt, st1)) ∧
    (∀ pkt st1, simBuild st .disconnect = .ok (pkt, st1) →
      send_disconnect st false = .ok (pkt, st1)) ∧
    (∀ pkt st1, simBuild st .lobbyJoin = .ok (pkt, st1) →
      send_lobby_join st false = .error (.osError, st1)) ∧
    (∀ pkt st1, simBuild st .ready = .ok (pkt, st1) →
      send_ready st false = .error (.osError, st1)) ∧
    (∀ pkt st1, simBuild st .carUpdate = .ok (pkt, st1) →
      send_car_update st false = .error (.osError, st1)) ∧
    (∀ t pkt st1, simBuild st (.itemPlaced t) = .ok (pkt, st1) →
      send_item_placed st t false = .error (.osError, st1)) := by
  refine ⟨?_, ?_, ?_, ?_, ?_, ?_⟩
  · intro pkt st1 h
    unfold send_lobby_update
    rw [h]
    rfl
  · intro pkt st1 h
    unfold send_disconnect
    rw [h]
    rfl
  · intro pkt st1 h
    unfold send_lobby_join
    rw [h]
    rfl
  · intro pkt st1 h
    unfold send_ready
    rw [h]
    rfl
  · intro pkt st1 h
    unfold send_car_update
    rw [h]
    rfl
  · intro t pkt st1 h
    unfold send_item_placed
    rw [h]
    rfl

/-- Witness for C8 amended: all six send paths at the fresh session, with
the OS send failing. -/
theorem claim_C8_send_error_policy_witness :
    send_lobby_update stA false =
      .ok ([1, 1, 1, 0, 0, 0, 0, 0] ++ List.replicate 24 0,
        { stA with sequence_number := 1 }) ∧
    send_disconnect stA false =
      .ok ([1, 6, 1, 0, 0, 0, 0, 0] ++ List.replicate 24 0,
        { stA with sequence_number := 1 }) ∧
    send_lobby_join stA false = .error (.osError, { stA with sequence_number := 1 }) ∧
    send_ready stA false = .error (.osError, { stA with sequence_number := 1 }) ∧
    send_car_update stA false = .error (.osError, { stA with sequence_number := 1 }) ∧
    send_item_placed stA ITEM_BANANA false =
      .error (.osError, { stA with sequence_number := 1 }) := by
  obtain ⟨h1, h2, h3, h4, h5, h6⟩ := claim_C8_send_error_policy stA
  have h0 : toQ16_8 0 = 0 := by norm_num [toQ16_8, pyInt]
  have h10 : toQ16_8 10 = 2560 := by norm_num [toQ16_8, pyInt]
  have hbCar : simBuild stA .carUpdate =
      .ok ([1, 3, 1, 0, 0, 0, 0, 0] ++
        [0, 0, 0, 0, 0, 0, 0, 0, 0, 0, 0, 0, 0, 0, 0, 0, 1, 0, 0, 0, 0, 0, 0, 0],
        { stA with sequence_number := 1 }) := by
    simp only [simBuild, simPayload, stA, h0]
    rfl
  have hbItem : simBuild stA (.itemPlaced ITEM_BANANA) =
      .ok ([1, 4, 1, 0, 0, 0, 0, 0] ++
        [1, 0, 0, 0, 0, 0, 0, 0, 0, 0, 0, 0, 0, 0, 0, 0, 0, 10, 0, 0, 0, 0, 0, 0],
        { stA with sequence_number := 1 }) := by
    simp only [simBuild, simPayload, stA, h0, h10]
    rfl
  exact ⟨h1 _ _ rfl, h2 _ _ rfl, h3 _ _ rfl, h4 _ _ rfl,
    h5 _ _ hbCar, h6 ITEM_BANANA _ _ hbItem⟩

end KartMania

namespace KartMania

/-- C9 counterexample: with the counter at `2^32 - 1`, one more build
succeeds (stamping `2^32 - 1`) and leaves the counter at `2^32`; the build
after that raises `struct.error` instead of producing a packet carrying
sequence number 0 — the counter does not wrap. -/
theorem claim_C9_wrap_counterexample :
    build_packet { stA with sequence_number := 4294967295 } MSG_LOBBY_UPDATE
        disconnectPayload =
      .ok ([1, 1, 1, 0, 255, 255, 255, 255] ++ disconnectPayload,
        { stA with sequence_number := 4294967296 }) ∧
    build_packet { stA with sequence_number := 4294967296 } MSG_LOBBY_UPDATE
        disconnectPayload = .error .structError :=
  ⟨rfl, rfl⟩

/-- C9 amended: when the counter has reached `2^32 - 1`, the next build
succeeds and stamps `2^32 - 1`, incrementing the counter to `2^32` without
modular reduction; the subsequent build fails with `struct.error` (the
`uint32` header pack rejects `2^32`) rather than carrying sequence 0. -/
theorem claim_C9_no_wraparound (st : SimulatedDSPlayer) (mt : Nat)
    (pl pl2 : List Nat) (hm : mt < 256) (hp : st.player_id < 256)
    (hs : st.sequence_number = 4294967295) :
    build_packet st mt pl =
      .ok ([1, mt, st.player_id, 0, 255, 255, 255, 255] ++ pl,
        { st with sequence_number := 4294967296 }) ∧
    seqOf ([1, mt, st.player_id, 0, 255, 255, 255, 255] ++ pl) = 4294967295 ∧
    build_packet { st with sequence_number := 4294967296 } mt pl2 =
      .error .structError := by
  refine ⟨?_, ?_, ?_⟩
  · rw [build_packet_ok_of pl hm hp (by omega), hs]
  · unfold seqOf
    simp only [List.cons_append, List.getD_cons_succ, List.getD_cons_zero]
  · exact build_packet_overflow pl2 (by simp)

/-- Witness for C9 amended at the fresh session with the counter forced to
`2^32 - 1`. -/
theorem claim_C9_no_wraparound_witness :
    build_packet { stA with sequence_number := 4294967295 } 1 disconnectPayload =
      .ok ([1, 1, 1, 0, 255, 255, 255, 255] ++ disconnectPayload,
        { stA with sequence_number := 4294967296 }) ∧
    seqOf ([1, 1, 1, 0, 255, 255, 255, 255] ++ disconnectPayload) = 4294967295 ∧
    build_packet { stA with sequence_number := 4294967296 } 1 disconnectPayload =
      .error .structError :=
  claim_C9_no_wraparound { stA with sequence_number := 4294967295 } 1
    disconnectPayload disconnectPayload (by norm_num) (by decide) rfl

/-- C10: the receive path reads only the 8-byte header — for two datagrams
of length at least 8 that agree on their first 8 bytes it behaves
identically: same self-echo decision, same `packets_received` change, same
display; bytes 8 onward never influence it. -/
theorem claim_C10_payload_noninterference (st : SimulatedDSPlayer)
    (d1 d2 : List Nat) (h1 : 8 ≤ d1.length) (h2 : 8 ≤ d2.length)
    (ht : d1.take 8 = d2.take 8) :
    receiveBody st d1 = receiveBody st d2 ∧
    receive_packets st d1 = receive_packets st d2 := by
  have hb := @receiveBody_headers_only st d1 d2 h1 h2 ht
  refine ⟨hb, ?_⟩
  unfold receive_packets
  rw [hb]

/-- Witness for C10: an 8-byte datagram against the same header followed by
two extra payload bytes. -/
theorem claim_C10_payload_noninterference_witness :
    receiveBody stA [1, 3, 4, 0, 5, 0, 0, 0] =
      receiveBody stA ([1, 3, 4, 0, 5, 0, 0, 0] ++ [77, 88]) ∧
    receive_packets stA [1, 3, 4, 0, 5, 0, 0, 0] =
      receive_packets stA ([1, 3, 4, 0, 5, 0, 0, 0] ++ [77, 88]) :=
  claim_C10_payload_noninterference stA _ _ (by decide) (by decide) (by decide)

end KartMania
